import Mathlib

/-!
Verification of the sql-connector excerpt of the prisma repository:
the MySQL connector (transaction lifecycle, truncate cleanup, row
decoding) in `database/mysql.rs` and the related-records base query
builder in `query_builder/related_nodes/base_query.rs`.

External collaborators (the MySQL driver, the `prisma_query` AST
printer, `serde_json`, the filter and cursor translators) are modelled
either as concrete small functions mirroring their documented behaviour
or as function parameters, as noted at each definition.
-/

namespace PrismaSql

/-- `GraphqlId` from `prisma_models` (external to the excerpt): an opaque
record identifier, either textual or numeric.  `GraphqlId::from(u64)` is
`uint`, `GraphqlId::from(SqlId)` maps through `fromSqlId` below. -/
inductive GraphqlId where
  | str (s : String)
  | int (n : Int)
  | uint (n : Nat)
deriving DecidableEq, Repr

/-- `SqlId` (the driver-level identifier read from a column): textual or
numeric, as in the source's `let id: SqlId = val`. -/
inductive SqlId where
  | strId (s : String)
  | intId (n : Int)
deriving DecidableEq, Repr

/-- `GraphqlId::from(SqlId)`. -/
def GraphqlId.fromSqlId : SqlId → GraphqlId
  | .strId s => .str s
  | .intId n => .int n

/-- Parsed structured document, the result type of `serde_json::from_str`
(external collaborator).  The decoder only passes such documents through,
so the exact constructors are unimportant to the claims. -/
inductive JsonDoc where
  | null
  | bool (b : Bool)
  | num (n : Int)
  | str (s : String)
  | arr (items : List JsonDoc)
  | obj (fields : List (String × JsonDoc))

/-- A raw driver-level column value (`mysql::Value` of the driver crate,
external collaborator).  A NULL column is represented by `Option.none`
around `Raw`, matching the source's `match row.get_opt(i)? { Some(..) ..
None => Null }` shape.  The floating-point payload is abstracted as its
bit pattern; no claim inspects it. -/
inductive Raw where
  | text (s : String)
  | int (n : Int)
  | uint (n : Nat)
  | double (bits : Nat)
  | uuidVal (bytes : List Nat)
  | dateTimeVal (naive : Int)
deriving DecidableEq, Repr

/-- The connector's error type (`SqlError` in `error.rs`, whose source is
not part of the excerpt).  `fromValueError` mirrors the
`my::error::Error::FromValueError(value)` the decoder produces, carrying
the offending raw value.  `unsupportedOperation` — Modelled from the
spec: the spec's error taxonomy lists an UnsupportedOperation error for
raw SQL execution; the variant is needed only to state that claim. -/
inductive SqlError where
  | queryError (message : String)
  | fromValueError (value : Raw)
  | unsupportedOperation
deriving DecidableEq, Repr

/-- The domain value model (`PrismaValue` of `prisma_models`, external),
restricted to the variants the decoder produces.  The `dateTime` payload
is the UTC instant obtained by `DateTime::<Utc>::from_utc(ts, Utc)`,
which attaches the UTC zone without changing the instant. -/
inductive PrismaValue where
  | null
  | string (s : String)
  | graphqlId (id : GraphqlId)
  | float (bits : Nat)
  | int (n : Int)
  | boolean (b : Bool)
  | enum (s : String)
  | json (doc : JsonDoc)
  | uuid (bytes : List Nat)
  | dateTime (utc : Int)

/-- `TypeIdentifier` of `prisma_models` (external): the declared domain
type of a column, supplied by the caller. -/
inductive TypeIdentifier where
  | string
  | graphQLID
  | relation
  | float
  | int
  | boolean
  | enum
  | json
  | uuid
  | dateTime
deriving DecidableEq, Repr

/-- The typed row container (`SqlRow`): an ordered sequence of domain
values. -/
structure SqlRow where
  values : List PrismaValue

/-! ### Driver conversions

The typed reads `row.get_opt::<T>(i)` of the MySQL driver crate
(external collaborator): each conversion succeeds on the matching raw
shape and otherwise fails with a `FromValueError` carrying the raw
value, as the driver does. -/

/-- Driver conversion to `String` (`Value::Bytes` read as text). -/
def rawToString : Raw → Except SqlError String
  | .text s => .ok s
  | v => .error (.fromValueError v)

/-- Driver conversion to `SqlId`. -/
def rawToSqlId : Raw → Except SqlError SqlId
  | .text s => .ok (.strId s)
  | .int n => .ok (.intId n)
  | .uint n => .ok (.intId (Int.ofNat n))
  | v => .error (.fromValueError v)

/-- Driver conversion to `i64`. -/
def rawToInt : Raw → Except SqlError Int
  | .int n => .ok n
  | .uint n => .ok (Int.ofNat n)
  | v => .error (.fromValueError v)

/-- Driver conversion to `f64` (bit pattern, abstracted). -/
def rawToFloat : Raw → Except SqlError Nat
  | .double bits => .ok bits
  | v => .error (.fromValueError v)

/-- Driver conversion to `bool` (MySQL booleans arrive as tiny ints). -/
def rawToBool : Raw → Except SqlError Bool
  | .int 0 => .ok false
  | .int 1 => .ok true
  | v => .error (.fromValueError v)

/-- Driver conversion to a UUID value. -/
def rawToUuid : Raw → Except SqlError (List Nat)
  | .uuidVal bytes => .ok bytes
  | v => .error (.fromValueError v)

/-- Driver conversion to a naive timestamp (`NaiveDateTime`). -/
def rawToDateTime : Raw → Except SqlError Int
  | .dateTimeVal naive => .ok naive
  | v => .error (.fromValueError v)

/-- `row.get_opt(i)` (and the `row.try_get(i)` spelling used by the last
two arms of the source): the raw value of column `i`, `none` when the
column is NULL at the driver level. -/
def get_opt (row : List (Option Raw)) (i : Nat) : Option Raw :=
  row.getD i none

/-- The inner `convert` function of `to_prisma_row`
(`mysql.rs:149-202`): type-directed decoding of column `i` of `row`
under the type identifier `typid`.  `parse` is `serde_json::from_str`
(external), passed as a parameter.

Note on the `UUID` arm: the source has two match arms for
`TypeIdentifier::UUID` (`mysql.rs:184-191`); the first arm's body is the
bare function item `Uuid::from_slice` — a type error, so the file cannot
compile as written — and it shadows the second arm, which wraps the
driver value as `PrismaValue::Uuid(val)`.  Both arms agree that a NULL
column decodes to `Null`.  This embedding uses the second (well-typed,
intended) arm. -/
def convert (parse : String → Except String JsonDoc) (row : List (Option Raw)) (i : Nat)
    (typid : TypeIdentifier) : Except SqlError PrismaValue :=
  match typid with
  | .string =>
    match get_opt row i with
    | some val => (rawToString val).map PrismaValue.string
    | none => .ok .null
  | .graphQLID | .relation =>
    match get_opt row i with
    | some val => (rawToSqlId val).map (fun id => PrismaValue.graphqlId (GraphqlId.fromSqlId id))
    | none => .ok .null
  | .float =>
    match get_opt row i with
    | some val => (rawToFloat val).map PrismaValue.float
    | none => .ok .null
  | .int =>
    match get_opt row i with
    | some val => (rawToInt val).map PrismaValue.int
    | none => .ok .null
  | .boolean =>
    match get_opt row i with
    | some val => (rawToBool val).map PrismaValue.boolean
    | none => .ok .null
  | .enum =>
    match get_opt row i with
    | some val => (rawToString val).map PrismaValue.enum
    | none => .ok .null
  | .json =>
    match get_opt row i with
    | some val =>
      match rawToString val with
      | .error e => .error e
      | .ok text =>
        match parse text with
        | .ok doc => .ok (.json doc)
        | .error _ => .error (.fromValueError val)
    | none => .ok .null
  | .uuid =>
    match get_opt row i with
    | some val => (rawToUuid val).map PrismaValue.uuid
    | none => .ok .null
  | .dateTime =>
    match get_opt row i with
    | some val => (rawToDateTime val).map PrismaValue.dateTime
    | none => .ok .null

/-- The loop body of `to_prisma_row` (`mysql.rs:204-210`): starting at
column index `i`, decode each remaining type identifier and collect the
values in order, stopping at the first failure (the `?` in
`row.values.push(convert(self, i, typid)?)`). -/
def to_prisma_row_from (parse : String → Except String JsonDoc) (row : List (Option Raw)) :
    Nat → List TypeIdentifier → Except SqlError (List PrismaValue)
  | _, [] => .ok []
  | i, typid :: rest =>
    match convert parse row i typid with
    | .error e => .error e
    | .ok v =>
      match to_prisma_row_from parse row (i + 1) rest with
      | .error e => .error e
      | .ok vs => .ok (v :: vs)

/-- `to_prisma_row` (`mysql.rs:145-211`): decode the whole row against
the ordered identifier list, starting from a default (empty) `SqlRow`
and pushing one value per identifier. -/
def to_prisma_row (parse : String → Except String JsonDoc) (row : List (Option Raw))
    (idents : List TypeIdentifier) : Except SqlError SqlRow :=
  (to_prisma_row_from parse row 0 idents).map SqlRow.mk

/-! ### Transaction.write, Transaction.raw -/

/-- What the driver reports after a successful `stmt.execute(params)`:
in particular `last_insert_id()`, the last AUTO_INCREMENT value
generated on the connection (`0` when the statement generated none, the
MySQL convention). -/
structure ExecOutcome where
  last_insert_id : Nat
deriving DecidableEq, Repr

/-- `Transaction::write` (`mysql.rs:101-108`).  The AST-to-SQL
compilation is infallible; `self.prepare(&sql)?` and
`stmt.execute(params)?` are the fallible driver steps, modelled by the
`prepareRes` and `execRes` outcomes.  On success the source returns
`Ok(Some(GraphqlId::from(result.last_insert_id())))`. -/
def write (prepareRes : Except SqlError Unit) (execRes : Except SqlError ExecOutcome) :
    Except SqlError (Option GraphqlId) :=
  match prepareRes with
  | .error e => .error e
  | .ok _ =>
    match execRes with
    | .error e => .error e
    | .ok result => .ok (some (GraphqlId.uint result.last_insert_id))

/-- `RawQuery`: the argument of `Transaction::raw`. -/
structure RawQuery where
  query : String
deriving DecidableEq, Repr

/-- The possible outcomes of `Transaction::raw`: a successful JSON
value, a returned connector error, or a process panic.  The panic
variant is needed because `raw`'s body diverges rather than returning. -/
inductive RawResult where
  | ok (v : JsonDoc)
  | err (e : SqlError)
  | panicked (msg : String)

/-- `Transaction::raw` (`mysql.rs:139-141`): the body is the
`unimplemented` panic macro invocation, which aborts with the message
"not implemented" instead of returning a value. -/
def raw (q : RawQuery) : RawResult :=
  .panicked "not implemented"

/-! ### with_transaction -/

/-- Observable lifecycle events of `Mysql::with_transaction`: acquiring
the pooled connection (`with_conn`), `conn.start_transaction(..)`, and
the invocation of `tx.commit()`. -/
inductive TxEvent where
  | connAcquired
  | txStarted
  | commitInvoked
deriving DecidableEq, Repr

/-- `Mysql::with_transaction` (`mysql.rs:83-98`) together with the
`with_conn` wrapper (`mysql.rs:215-222`).  The first parameter is the
ignored `_: &str` of the source.  `connRes` is the outcome of
`self.pool.get_conn()?`, `startRes` of `conn.start_transaction(..)?`,
`body` the result of `f(&mut tx)`, and `commitRes` the outcome of
`tx.commit()?` when it is invoked.  Returns the lifecycle event trace
together with the value the source returns.  A transaction whose commit
is never invoked is rolled back when the connection is released. -/
def with_transaction {α : Type} (s : String) (connRes : Except SqlError Unit)
    (startRes : Except SqlError Unit) (body : Except SqlError α)
    (commitRes : Except SqlError Unit) : List TxEvent × Except SqlError α :=
  match connRes with
  | .error e => ([], .error e)
  | .ok _ =>
    match startRes with
    | .error e => ([.connAcquired], .error e)
    | .ok _ =>
      match body with
      | .ok v =>
        match commitRes with
        | .ok _ => ([.connAcquired, .txStarted, .commitInvoked], .ok v)
        | .error e => ([.connAcquired, .txStarted, .commitInvoked], .error e)
      | .error e => ([.connAcquired, .txStarted], .error e)

/-! ### Transaction.truncate -/

/-- The statements `truncate` issues: the two `SET FOREIGN_KEY_CHECKS`
toggles and one `DELETE` per table produced by
`MutationBuilder::truncate_tables(project)` (external; the schema is
modelled as the resulting ordered table list). -/
inductive Stmt where
  | setForeignKeyChecks (enabled : Bool)
  | deleteFrom (table : String)
deriving DecidableEq, Repr

/-- The delete loop of `truncate` (`mysql.rs:127-136`), including the
re-enable statement: statements issued in order, with the early return
on the first failing delete preceded by `SET FOREIGN_KEY_CHECKS=1`; the
`?` on that re-enabling `write` means its own failure replaces the
delete's error.  After a complete loop the re-enable statement is issued
once and the result is `Ok(())` (when the re-enable write succeeds).
`env` gives each issued statement's outcome.  Returns the issued trace
and the result. -/
def truncate_deletes (env : Stmt → Except SqlError Unit) :
    List String → List Stmt × Except SqlError Unit
  | [] =>
    match env (.setForeignKeyChecks true) with
    | .ok _ => ([.setForeignKeyChecks true], .ok ())
    | .error e2 => ([.setForeignKeyChecks true], .error e2)
  | t :: ts =>
    match env (.deleteFrom t) with
    | .ok _ =>
      let rest := truncate_deletes env ts
      (.deleteFrom t :: rest.1, rest.2)
    | .error e =>
      match env (.setForeignKeyChecks true) with
      | .ok _ => ([.deleteFrom t, .setForeignKeyChecks true], .error e)
      | .error e2 => ([.deleteFrom t, .setForeignKeyChecks true], .error e2)

/-- `Transaction::truncate` (`mysql.rs:124-137`): disable
referential-integrity checks, run the delete loop, re-enable.  A failing
initial `SET FOREIGN_KEY_CHECKS=0` returns before any delete. -/
def truncate (env : Stmt → Except SqlError Unit) (tables : List String) :
    List Stmt × Except SqlError Unit :=
  match env (.setForeignKeyChecks false) with
  | .error e => ([.setForeignKeyChecks false], .error e)
  | .ok _ =>
    let rest := truncate_deletes env tables
    (.setForeignKeyChecks false :: rest.1, rest.2)

/-- The error of the first table in the list whose delete fails under
`env`, if any. -/
def firstDeleteError (env : Stmt → Except SqlError Unit) : List String → Option SqlError
  | [] => none
  | t :: ts =>
    match env (.deleteFrom t) with
    | .ok _ => firstDeleteError env ts
    | .error e => some e

/-- The tables whose delete statement is actually issued by the loop:
every table up to and including the first failing one. -/
def issuedDeletes (env : Stmt → Except SqlError Unit) : List String → List String
  | [] => []
  | t :: ts =>
    match env (.deleteFrom t) with
    | .ok _ => t :: issuedDeletes env ts
    | .error _ => [t]

/-! ### prisma_query AST (external collaborator, constructor-level model)

`base_query.rs` builds a `Select` through the `prisma_query::ast`
combinators.  The AST itself is external; it is modelled at the
constructor level so that the shape the builder assembles is visible. -/

/-- A column reference, optionally qualified by a table or alias
(`Column::table` sets the qualifier). -/
structure Column where
  qualifier : Option String
  name : String
deriving DecidableEq, Repr

/-- `Column::table(..)`: qualify the column with a table or alias. -/
def Column.table (c : Column) (t : String) : Column :=
  { c with qualifier := some t }

/-- Comparison expressions used by the builder: the `IN` membership test
(`Comparable::in_selection`) and column equality (`Comparable::equals`). -/
inductive SqlCompare where
  | inSelection (col : Column) (vals : List GraphqlId)
  | equalsCol (l r : Column)
deriving DecidableEq, Repr

/-- `ConditionTree` of `prisma_query::ast`: a composable boolean
expression over comparisons. -/
inductive ConditionTree where
  | noCondition
  | single (c : SqlCompare)
  | and (l r : ConditionTree)
deriving DecidableEq, Repr

/-- `Comparable::in_selection`. -/
def Column.in_selection (c : Column) (vals : List GraphqlId) : SqlCompare :=
  .inSelection c vals

/-- `Comparable::equals` between two columns. -/
def Column.equals (l r : Column) : SqlCompare :=
  .equalsCol l r

/-- `Conjuctive::and` on a comparison: lifts it into the tree and
conjoins. -/
def SqlCompare.and (c : SqlCompare) (t : ConditionTree) : ConditionTree :=
  .and (.single c) t

/-- An aliasable table reference (`Aliasable::alias`). -/
structure TableRef where
  name : String
  tableAlias : Option String
deriving DecidableEq, Repr

/-- `Aliasable::alias`. -/
def TableRef.alias (t : TableRef) (a : String) : TableRef :=
  { t with tableAlias := some a }

/-- A join datum (`JoinData`, the result of `Joinable::on`): the joined
table and its ON condition (the field `on` of the source is renamed
`onCond`; `on` is reserved notation here). -/
structure JoinData where
  table : TableRef
  onCond : SqlCompare
deriving DecidableEq, Repr

/-- `Joinable::on` (named `onCond` here, see `JoinData`). -/
def TableRef.onCond (t : TableRef) (c : SqlCompare) : JoinData :=
  ⟨t, c⟩

/-- `OrderBy` of `prisma_models` (external): only carried through by the
builder, so the payload is abstracted to the ordered field's name and a
direction flag. -/
structure OrderBy where
  field : String
  descending : Bool
deriving DecidableEq, Repr

/-- `Select` of `prisma_query::ast`, restricted to the fields the
builder touches. -/
structure Select where
  table : String
  columns : List Column
  conditions : ConditionTree
  joins : List JoinData
  ordering : List OrderBy
deriving DecidableEq, Repr

/-- `Select::from_table`. -/
def Select.from_table (t : String) : Select :=
  ⟨t, [], .noCondition, [], []⟩

/-- `Select::column`: append a selected column. -/
def Select.column (s : Select) (c : Column) : Select :=
  { s with columns := s.columns ++ [c] }

/-- `Select::so_that`: install the WHERE condition tree. -/
def Select.so_that (s : Select) (c : ConditionTree) : Select :=
  { s with conditions := c }

/-- `Select::inner_join`. -/
def Select.inner_join (s : Select) (j : JoinData) : Select :=
  { s with joins := s.joins ++ [j] }

/-- `Select::order_by`. -/
def Select.order_by (s : Select) (o : OrderBy) : Select :=
  { s with ordering := s.ordering ++ [o] }

/-! ### Related-records base query (`base_query.rs`) -/

/-- A caller-supplied filter (external collaborator): its only use in
the builder is being translated by `AliasedCondition::aliased_cond`,
which is passed as a function parameter, so the payload is opaque. -/
structure Filter where
  tag : Nat
deriving DecidableEq, Repr

/-- `QueryArguments` of the `connector` crate (external), restricted to
the fields `RelatedNodesBaseQuery::new` reads.  The cursor fields only
feed `CursorCondition::build`, which is passed as a function parameter. -/
structure QueryArguments where
  filter : Option Filter
  order_by : Option OrderBy
  last : Option Nat
deriving DecidableEq, Repr

/-- The description of the related model that the builder reads: its
table name and primary-key column (`ModelRef` of `prisma_models`,
external). -/
structure ModelDesc where
  db_name : String
  id_field : String
deriving DecidableEq, Repr

/-- `ModelRef::table`. -/
def ModelDesc.table (m : ModelDesc) : String :=
  m.db_name

/-- `ModelRef::id_column`: the primary-key column qualified by the
model's table. -/
def ModelDesc.id_column (m : ModelDesc) : Column :=
  ⟨some m.db_name, m.id_field⟩

/-- The relation field being traversed (`RelationField` of
`prisma_models`, external), restricted to what the builder reads: the
join table's two column names, the join table name, and the related
model. -/
structure RelationField where
  relation_column_name : String
  opposite_column_name : String
  relation_table_name : String
  related : ModelDesc
deriving DecidableEq, Repr

/-- `RelationField::relation_column`: the parent-side column of the join
table. -/
def RelationField.relation_column (f : RelationField) : Column :=
  ⟨none, f.relation_column_name⟩

/-- `RelationField::opposite_column`: the child-side column of the join
table. -/
def RelationField.opposite_column (f : RelationField) : Column :=
  ⟨none, f.opposite_column_name⟩

/-- `RelationField::related_model`. -/
def RelationField.related_model (f : RelationField) : ModelDesc :=
  f.related

/-- `from_field.relation().relation_table()`. -/
def RelationField.relation_table (f : RelationField) : TableRef :=
  ⟨f.relation_table_name, none⟩

/-- `Relation::TABLE_ALIAS` of `prisma_models` (external constant; its
exact text is irrelevant to the claims). -/
def Relation.TABLE_ALIAS : String :=
  "RelationTable"

/-- The selected output columns (`SelectedFields::columns`, external). -/
structure SelectedFields where
  columns : List Column
deriving DecidableEq, Repr

/-- The immutable intermediate representation built by
`RelatedNodesBaseQuery::new` (`base_query.rs:7-14`). -/
structure RelatedNodesBaseQuery where
  from_field : RelationField
  selected_fields : SelectedFields
  query : Select
  order_by : Option OrderBy
  is_reverse_order : Bool
  window_limits : Nat × Nat
deriving DecidableEq, Repr

/-- `RelatedNodesBaseQuery::new` (`base_query.rs:17-65`).  The external
calls are function parameters: `cursorBuild` is `CursorCondition::build`,
`aliased_cond` is `AliasedCondition::aliased_cond` (the source passes
the alias argument `None`), and `windowLimits` is
`QueryArguments::window_limits`. -/
def RelatedNodesBaseQuery.new
    (cursorBuild : QueryArguments → ModelDesc → ConditionTree)
    (aliased_cond : Filter → Option String → ConditionTree)
    (windowLimits : QueryArguments → Nat × Nat)
    (from_field : RelationField) (from_node_ids : List GraphqlId)
    (query_arguments : QueryArguments) (selected_fields : SelectedFields) :
    RelatedNodesBaseQuery :=
  let cursor_condition := cursorBuild query_arguments from_field.related_model
  let window_limits := windowLimits query_arguments
  let base_condition :=
    (query_arguments.filter.map (fun f => aliased_cond f none)).getD ConditionTree.noCondition
  let relation_column := from_field.relation_column.table Relation.TABLE_ALIAS
  let opposite_column := from_field.opposite_column.table Relation.TABLE_ALIAS
  let conditions :=
    ConditionTree.and
      ((relation_column.in_selection from_node_ids).and base_condition)
      cursor_condition
  let select := Select.from_table from_field.related_model.table
  let join :=
    (from_field.relation_table.alias Relation.TABLE_ALIAS).onCond
      (from_field.related_model.id_column.equals opposite_column)
  let query :=
    ((selected_fields.columns.foldl (fun acc col => acc.column col) select).so_that
        conditions).inner_join join
  { from_field := from_field
    selected_fields := selected_fields
    query := query
    order_by := query_arguments.order_by
    is_reverse_order := query_arguments.last.isSome
    window_limits := window_limits }

/-! ### Concrete instantiations used by the witnesses -/

/-- A concrete document parser that rejects every input. -/
def parseNone : String → Except String JsonDoc :=
  fun _ => Except.error "malformed"

/-- A concrete document parser that parses every input as the null
document. -/
def parseAsNull : String → Except String JsonDoc :=
  fun _ => Except.ok JsonDoc.null

/-- A concrete statement environment: both `SET FOREIGN_KEY_CHECKS`
toggles succeed, the delete of table `"b"` fails with a constraint
error, every other delete succeeds. -/
def truncEnv : Stmt → Except SqlError Unit
  | .setForeignKeyChecks _ => .ok ()
  | .deleteFrom t => if t = "b" then .error (.queryError "constraint") else .ok ()

/-! ### Theorems -/

/-- The delete loop together with its re-enable statement: under an
environment whose `SET FOREIGN_KEY_CHECKS=1` statement succeeds, the
loop issues exactly the deletes up to and including the first failing
one followed by the single re-enable statement, and its result is the
first failing delete's error (`Ok(())` when none fails). -/
theorem truncate_deletes_spec (env : Stmt → Except SqlError Unit)
    (h1 : env (Stmt.setForeignKeyChecks true) = Except.ok ()) (tables : List String) :
    truncate_deletes env tables =
      ((issuedDeletes env tables).map Stmt.deleteFrom ++ [Stmt.setForeignKeyChecks true],
        (firstDeleteError env tables).elim (Except.ok ()) Except.error) := by
  induction tables with
  | nil => simp [truncate_deletes, issuedDeletes, firstDeleteError, h1]
  | cons t ts ih =>
    cases hdel : env (Stmt.deleteFrom t) with
    | ok u => simp [truncate_deletes, issuedDeletes, firstDeleteError, hdel, ih]
    | error e => simp [truncate_deletes, issuedDeletes, firstDeleteError, hdel, h1]

/-- No statement of a mapped delete list is the re-enable statement. -/
theorem count_reenable_in_deletes (l : List String) :
    (l.map Stmt.deleteFrom).count (Stmt.setForeignKeyChecks true) = 0 := by
  rw [List.count_eq_zero]
  simp

/-- C1: for every schema (table list) and statement environment in which
the two `SET FOREIGN_KEY_CHECKS` statements succeed, `truncate` issues
the re-enable statement `SET FOREIGN_KEY_CHECKS=1` exactly once, as the
last statement after the issued deletes — both when every delete
succeeds and when one fails partway — and the result is the first
failing delete's original error when one fails, `Ok(())` otherwise. -/
theorem truncate_reenables_checks_once (env : Stmt → Except SqlError Unit)
    (tables : List String)
    (h0 : env (Stmt.setForeignKeyChecks false) = Except.ok ())
    (h1 : env (Stmt.setForeignKeyChecks true) = Except.ok ()) :
    (truncate env tables).1.count (Stmt.setForeignKeyChecks true) = 1 ∧
    (truncate env tables).1.getLast? = some (Stmt.setForeignKeyChecks true) ∧
    (truncate env tables).2 = (firstDeleteError env tables).elim (Except.ok ()) Except.error := by
  have hd := truncate_deletes_spec env h1 tables
  unfold truncate
  rw [h0]
  simp only [hd]
  refine ⟨?_, ?_, ?_⟩
  · simp [List.count_cons, List.count_append, count_reenable_in_deletes]
  · rw [← List.cons_append]
    exact List.getLast?_concat _
  · trivial

/-- Witness for C1 at a concrete environment and table list. -/
theorem truncate_reenables_checks_once_witness :
    truncEnv (Stmt.setForeignKeyChecks false) = Except.ok () ∧
    truncEnv (Stmt.setForeignKeyChecks true) = Except.ok () ∧
    ((truncate truncEnv ["a", "b", "c"]).1.count (Stmt.setForeignKeyChecks true) = 1 ∧
      (truncate truncEnv ["a", "b", "c"]).1.getLast? = some (Stmt.setForeignKeyChecks true) ∧
      (truncate truncEnv ["a", "b", "c"]).2 =
        (firstDeleteError truncEnv ["a", "b", "c"]).elim (Except.ok ()) Except.error) :=
  ⟨rfl, rfl, truncate_reenables_checks_once truncEnv ["a", "b", "c"] rfl rfl⟩

/-- C2: once the pooled connection is acquired and the database
transaction started, `with_transaction` invokes `commit` exactly when
the body returns success; when the body returns an error, `commit` is
never invoked and the body's error is the returned one (no commit means
the transaction's effects are rolled back when the connection is
released). -/
theorem with_transaction_commits_iff_success {α : Type} (s : String)
    (connRes startRes : Except SqlError Unit) (body : Except SqlError α)
    (commitRes : Except SqlError Unit)
    (hconn : connRes = Except.ok ()) (hstart : startRes = Except.ok ()) :
    (TxEvent.commitInvoked ∈ (with_transaction s connRes startRes body commitRes).1 ↔
      ∃ v, body = Except.ok v) ∧
    (∀ e, body = Except.error e →
      (with_transaction s connRes startRes body commitRes).2 = Except.error e ∧
      TxEvent.commitInvoked ∉ (with_transaction s connRes startRes body commitRes).1) := by
  subst hconn hstart
  cases body with
  | ok v =>
    cases commitRes with
    | ok u => simp [with_transaction]
    | error e => simp [with_transaction]
  | error e => simp [with_transaction]

/-- Witness for C2: a failing body's error is returned with no commit
invoked, and a succeeding body leads to a commit invocation. -/
theorem with_transaction_commits_iff_success_witness :
    ((Except.error (SqlError.queryError "boom") : Except SqlError Nat) =
      Except.error (SqlError.queryError "boom")) ∧
    (with_transaction "db" (Except.ok ()) (Except.ok ())
        (Except.error (SqlError.queryError "boom") : Except SqlError Nat) (Except.ok ())).2 =
      Except.error (SqlError.queryError "boom") ∧
    TxEvent.commitInvoked ∉
      (with_transaction "db" (Except.ok ()) (Except.ok ())
        (Except.error (SqlError.queryError "boom") : Except SqlError Nat) (Except.ok ())).1 ∧
    TxEvent.commitInvoked ∈
      (with_transaction "db" (Except.ok ()) (Except.ok ())
        (Except.ok 5 : Except SqlError Nat) (Except.ok ())).1 :=
  ⟨rfl,
    ((with_transaction_commits_iff_success "db" _ _ _ _ rfl rfl).2
      (SqlError.queryError "boom") rfl).1,
    ((with_transaction_commits_iff_success "db" _ _ _ _ rfl rfl).2
      (SqlError.queryError "boom") rfl).2,
    (with_transaction_commits_iff_success "db" _ _ _ _ rfl rfl).1.mpr ⟨5, rfl⟩⟩

/-- C3 counterexample: a successfully executed statement that generated
no identifier (`last_insert_id() = 0`, e.g. a plain UPDATE) still
returns `Some(GraphqlId::from(0))`, not `None`. -/
theorem write_counterexample :
    write (Except.ok ()) (Except.ok ⟨0⟩) = Except.ok (some (GraphqlId.uint 0)) ∧
    write (Except.ok ()) (Except.ok ⟨0⟩) ≠ Except.ok (none : Option GraphqlId) :=
  ⟨rfl, by simp [write]⟩

/-- C3 (amended): on a successfully executed statement, `write` always
returns `Some(GraphqlId::from(result.last_insert_id()))` — including
`Some(0)` when no identifier was generated — and it never returns
`Ok(None)` on any input. -/
theorem write_always_returns_some (prepareRes : Except SqlError Unit)
    (execRes : Except SqlError ExecOutcome) (out : ExecOutcome)
    (h : execRes = Except.ok out) :
    write (Except.ok ()) execRes = Except.ok (some (GraphqlId.uint out.last_insert_id)) ∧
    write prepareRes execRes ≠ Except.ok (none : Option GraphqlId) := by
  subst h
  refine ⟨rfl, ?_⟩
  cases prepareRes <;> simp [write]

/-- Witness for the amended C3. -/
theorem write_always_returns_some_witness :
    (Except.ok (⟨42⟩ : ExecOutcome) : Except SqlError ExecOutcome) = Except.ok ⟨42⟩ ∧
    (write (Except.ok ()) (Except.ok ⟨42⟩) = Except.ok (some (GraphqlId.uint 42)) ∧
      write (Except.ok ()) (Except.ok ⟨42⟩) ≠ Except.ok (none : Option GraphqlId)) :=
  ⟨rfl, write_always_returns_some (Except.ok ()) (Except.ok ⟨42⟩) ⟨42⟩ rfl⟩

/-- C4 counterexample: `raw` on a concrete query does not return an
`UnsupportedOperation` error — it aborts with the `unimplemented`
panic. -/
theorem raw_counterexample :
    raw ⟨"SELECT 1"⟩ = RawResult.panicked "not implemented" ∧
    raw ⟨"SELECT 1"⟩ ≠ RawResult.err SqlError.unsupportedOperation :=
  ⟨rfl, fun h => nomatch h⟩

/-- C4 (amended): for every input query, `raw` fails immediately by the
`unimplemented` panic; it never executes the query and never succeeds —
but the failure is a panic, not a returned `UnsupportedOperation`
error. -/
theorem raw_always_panics (q : RawQuery) :
    raw q = RawResult.panicked "not implemented" ∧
    (∀ v, raw q ≠ RawResult.ok v) ∧
    (∀ e, raw q ≠ RawResult.err e) :=
  ⟨rfl, fun _ h => RawResult.noConfusion h, fun _ h => RawResult.noConfusion h⟩

/-- C5: for every supported type identifier, decoding a column whose raw
driver value is NULL/absent yields the domain value `Null`, never a
type-specific default or an error. -/
theorem convert_null_yields_null (parse : String → Except String JsonDoc)
    (row : List (Option Raw)) (i : Nat) (typid : TypeIdentifier)
    (h : get_opt row i = none) :
    convert parse row i typid = Except.ok PrismaValue.null := by
  cases typid <;> simp [convert, h]

/-- Witness for C5 at a concrete NULL column. -/
theorem convert_null_yields_null_witness :
    get_opt [none] 0 = none ∧
    convert parseNone [none] 0 TypeIdentifier.uuid = Except.ok PrismaValue.null :=
  ⟨rfl, convert_null_yields_null parseNone [none] 0 TypeIdentifier.uuid rfl⟩

/-- C6: for a non-null column read as text under the `Json` type
identifier, a successful parse yields the `Json` domain value of the
parsed document, and a parse failure yields a decode error carrying the
offending raw column value — never a silent `Null`. -/
theorem convert_json_parse (parse : String → Except String JsonDoc)
    (row : List (Option Raw)) (i : Nat) (rawVal : Raw) (text : String)
    (hget : get_opt row i = some rawVal) (htext : rawToString rawVal = Except.ok text) :
    (∀ doc, parse text = Except.ok doc →
      convert parse row i TypeIdentifier.json = Except.ok (PrismaValue.json doc)) ∧
    (∀ msg, parse text = Except.error msg →
      convert parse row i TypeIdentifier.json =
        Except.error (SqlError.fromValueError rawVal)) := by
  constructor
  · intro doc hp
    simp [convert, hget, htext, hp]
  · intro msg hp
    simp [convert, hget, htext, hp]

/-- Witness for C6: the same raw text column decoded with a succeeding
and with a failing parser. -/
theorem convert_json_parse_witness :
    get_opt [some (Raw.text "doc")] 0 = some (Raw.text "doc") ∧
    rawToString (Raw.text "doc") = Except.ok "doc" ∧
    convert parseAsNull [some (Raw.text "doc")] 0 TypeIdentifier.json =
      Except.ok (PrismaValue.json JsonDoc.null) ∧
    convert parseNone [some (Raw.text "doc")] 0 TypeIdentifier.json =
      Except.error (SqlError.fromValueError (Raw.text "doc")) :=
  ⟨rfl, rfl,
    (convert_json_parse parseAsNull [some (Raw.text "doc")] 0 (Raw.text "doc") "doc"
      rfl rfl).1 JsonDoc.null rfl,
    (convert_json_parse parseNone [some (Raw.text "doc")] 0 (Raw.text "doc") "doc"
      rfl rfl).2 "malformed" rfl⟩

/-- C7: in the embedding of the decoder's intended (well-typed) `UUID`
arm, a non-null raw UUID column decodes to the `Uuid` domain value of
the driver's native UUID conversion — the single, total mapping the
claim describes.  The source itself is defective here: see the note on
`convert`. -/
theorem convert_uuid_intended (parse : String → Except String JsonDoc)
    (row : List (Option Raw)) (i : Nat) (bytes : List Nat)
    (h : get_opt row i = some (Raw.uuidVal bytes)) :
    convert parse row i TypeIdentifier.uuid = Except.ok (PrismaValue.uuid bytes) := by
  simp [convert, h, rawToUuid, Except.map]

/-- Witness for C7 at a concrete raw UUID column. -/
theorem convert_uuid_intended_witness :
    get_opt [some (Raw.uuidVal [1, 2, 3])] 0 = some (Raw.uuidVal [1, 2, 3]) ∧
    convert parseNone [some (Raw.uuidVal [1, 2, 3])] 0 TypeIdentifier.uuid =
      Except.ok (PrismaValue.uuid [1, 2, 3]) :=
  ⟨rfl, convert_uuid_intended parseNone [some (Raw.uuidVal [1, 2, 3])] 0 [1, 2, 3] rfl⟩

/-- The decoding loop starting at column `k`: on success it yields one
value per remaining identifier, the value for the identifier at relative
position `i` being the decoding of column `k + i`. -/
theorem to_prisma_row_from_spec (parse : String → Except String JsonDoc)
    (row : List (Option Raw)) :
    ∀ (idents : List TypeIdentifier) (k : Nat) (vs : List PrismaValue),
      to_prisma_row_from parse row k idents = Except.ok vs →
      vs.length = idents.length ∧
      ∀ i typid, idents[i]? = some typid →
        convert parse row (k + i) typid = Except.ok (vs.getD i PrismaValue.null) := by
  intro idents
  induction idents with
  | nil =>
    intro k vs h
    simp [to_prisma_row_from] at h
    subst h
    simp
  | cons typid rest ih =>
    intro k vs h
    unfold to_prisma_row_from at h
    cases hc : convert parse row k typid with
    | error e => simp [hc] at h
    | ok v =>
      rw [hc] at h
      cases hr : to_prisma_row_from parse row (k + 1) rest with
      | error e => simp [hr] at h
      | ok vs0 =>
        rw [hr] at h
        simp at h
        subst h
        obtain ⟨hlen, hidx⟩ := ih (k + 1) vs0 hr
        refine ⟨by simp [hlen], ?_⟩
        intro i t hi
        cases i with
        | zero =>
          simp at hi
          subst hi
          simpa using hc
        | succ n =>
          simp at hi
          have harith : k + (n + 1) = k + 1 + n := by omega
          rw [harith]
          simpa using hidx n t hi

/-- C8: whenever row decoding succeeds, the domain row holds exactly one
value per requested type identifier, and the value at position `i` is
the decoding of raw column `i` under the identifier at position `i`
(order preserved). -/
theorem to_prisma_row_positional (parse : String → Except String JsonDoc)
    (row : List (Option Raw)) (idents : List TypeIdentifier) (r : SqlRow)
    (h : to_prisma_row parse row idents = Except.ok r) :
    r.values.length = idents.length ∧
    ∀ i typid, idents[i]? = some typid →
      convert parse row i typid = Except.ok (r.values.getD i PrismaValue.null) := by
  unfold to_prisma_row at h
  cases hr : to_prisma_row_from parse row 0 idents with
  | error e =>
    rw [hr] at h
    simp [Except.map] at h
  | ok vs =>
    rw [hr] at h
    simp [Except.map] at h
    obtain ⟨hlen, hidx⟩ := to_prisma_row_from_spec parse row idents 0 vs hr
    cases r with
    | mk values =>
      simp at h
      subst h
      exact ⟨hlen, fun i t hi => by simpa using hidx i t hi⟩

/-- Witness for C8 at a concrete row and identifier list. -/
theorem to_prisma_row_positional_witness :
    to_prisma_row parseNone [some (Raw.int 5), none]
        [TypeIdentifier.int, TypeIdentifier.string] =
      Except.ok ⟨[PrismaValue.int 5, PrismaValue.null]⟩ ∧
    (⟨[PrismaValue.int 5, PrismaValue.null]⟩ : SqlRow).values.length = 2 ∧
    convert parseNone [some (Raw.int 5), none] 1 TypeIdentifier.string =
      Except.ok ((⟨[PrismaValue.int 5, PrismaValue.null]⟩ : SqlRow).values.getD 1
        PrismaValue.null) :=
  ⟨rfl,
    (to_prisma_row_positional parseNone [some (Raw.int 5), none]
      [TypeIdentifier.int, TypeIdentifier.string] ⟨[PrismaValue.int 5, PrismaValue.null]⟩
      rfl).1,
    (to_prisma_row_positional parseNone [some (Raw.int 5), none]
      [TypeIdentifier.int, TypeIdentifier.string] ⟨[PrismaValue.int 5, PrismaValue.null]⟩
      rfl).2 1 TypeIdentifier.string rfl⟩

/-- C9: the WHERE clause of the related-records base query is exactly
the conjunction of (1) the `IN` membership test of the join table's
parent-side column against precisely the batch of parent identifiers,
(2) the caller's filter translated by `aliased_cond` (the neutral
no-condition when absent), and (3) the cursor condition built from the
query arguments. -/
theorem related_nodes_where_clause
    (cursorBuild : QueryArguments → ModelDesc → ConditionTree)
    (aliased_cond : Filter → Option String → ConditionTree)
    (windowLimits : QueryArguments → Nat × Nat)
    (from_field : RelationField) (from_node_ids : List GraphqlId)
    (query_arguments : QueryArguments) (selected_fields : SelectedFields) :
    (RelatedNodesBaseQuery.new cursorBuild aliased_cond windowLimits from_field
        from_node_ids query_arguments selected_fields).query.conditions =
      ConditionTree.and
        (ConditionTree.and
          (ConditionTree.single
            (SqlCompare.inSelection
              (Column.table from_field.relation_column Relation.TABLE_ALIAS)
              from_node_ids))
          ((query_arguments.filter.map (fun f => aliased_cond f none)).getD
            ConditionTree.noCondition))
        (cursorBuild query_arguments from_field.related_model) := by
  have hfold : ∀ (cols : List Column) (s : Select),
      ((cols.foldl (fun acc col => acc.column col) s).so_that
          (RelatedNodesBaseQuery.new cursorBuild aliased_cond windowLimits from_field
            from_node_ids query_arguments selected_fields).query.conditions).conditions =
        (RelatedNodesBaseQuery.new cursorBuild aliased_cond windowLimits from_field
          from_node_ids query_arguments selected_fields).query.conditions := by
    intro cols s
    rfl
  simp [RelatedNodesBaseQuery.new, Select.inner_join, Select.so_that, Column.in_selection,
    SqlCompare.and]

/-- C10: `with_transaction` ignores its string parameter entirely — for
any two strings and otherwise identical inputs the lifecycle trace and
the result coincide. -/
theorem with_transaction_ignores_name {α : Type} (s1 s2 : String)
    (connRes startRes : Except SqlError Unit) (body : Except SqlError α)
    (commitRes : Except SqlError Unit) :
    with_transaction s1 connRes startRes body commitRes =
      with_transaction s2 connRes startRes body commitRes :=
  rfl

end PrismaSql
